import Mathlib

/-!
# Verification of `brainrender/actor.py`

Shallow embedding of the actor module of brainrender: the `Actor` class,
the label synthesizer `make_actor_label`, the silhouette synthesizer, the
`mirror` transform and the Python attribute-delegation fallback
(`__getattr__`).  External collaborators (the vedo geometry engine, the
brainglobe atlas and anatomical-space resolver) are modelled at their
interface boundary, as the spec prescribes; everything else is translated
from `src/brainrender/actor.py`.

Coordinates are integers (centers of mass are rational); a 3D point is a
triple.  Python exceptions are modelled with `Except PyErr` / `Option`;
`None`-able parameters with `Option`.
-/

set_option autoImplicit false

namespace Brainrender

/-- A 3D point / vector with integer coordinates (the claims under
check are arithmetic-structure claims; integer coordinates keep every
computation kernel-evaluable). -/
abbrev Vec3 : Type := ℤ × ℤ × ℤ

/-- A 3D point with rational coordinates, for the center of mass. -/
abbrev QVec3 : Type := ℚ × ℚ × ℚ

/-- Negate all three coordinates (the `point * np.array([-1, -1, -1])` of
the source). -/
def negVec (p : Vec3) : Vec3 := (-p.1, -p.2.1, -p.2.2)

/-- Colors as accepted by the source: a named/hex color string or an RGB
triple (the gray default `[0.2, 0.2, 0.2]` is an RGB triple). -/
inductive Color : Type where
  | named (s : String)
  | rgb (r g b : ℚ)
deriving DecidableEq, Repr

/-- Python truthiness of a color value (`if color:` in `Actor.__init__`):
`None` is handled by the caller via `Option`; an empty string is falsy,
a non-empty string and any 3-element list are truthy. -/
def Color.truthy : Color → Bool
  | .named s => s ≠ ""
  | .rgb _ _ _ => true

/-- The gray default color `[0.2, 0.2, 0.2]` of `make_actor_label`. -/
def grayColor : Color := Color.rgb (1/5) (1/5) (1/5)

/-- What kind of vedo object a mesh handle holds.  `poly` is an ordinary
mesh; `text3d` records the `Text3D(label, ..., s=size, ..., depth=0.1)`
constructor arguments and the rotations applied afterwards; `sphere`
records the `Sphere(pt, r=radius, ..., res=8)` arguments, the `ancor`
tag and whether `compute_normals()` was requested. -/
inductive ShapeTag : Type where
  | poly
  | text3d (label : String) (s : ℚ) (depth : ℚ) (rotations : List (String × ℚ))
  | sphere (r : ℚ) (res : ℕ) (ancor : Vec3) (normalsComputed : Bool)
deriving DecidableEq, Repr

/-- Geometry-facade model of a vedo mesh object: vertex array, current
color and opacity settings, line width, a map of further delegatable
attributes (integer-valued, e.g. `npoints`), and the shape tag. -/
structure Mesh : Type where
  vertices : List Vec3
  color : Color
  opacity : ℚ
  linewidth : ℚ
  attrs : List (String × Int)
  shape : ShapeTag
deriving DecidableEq, Repr

/-- Attribute lookup on a mesh object (models Python `getattr`/`hasattr`
on the vedo object for names not modelled as typed fields). -/
def Mesh.getAttrVal (m : Mesh) (attr : String) : Option Int :=
  (m.attrs.find? (fun kv => kv.1 = attr)).map (fun kv => kv.2)

/-- Sum of a list of 3D points, coordinatewise. -/
def vsum : List Vec3 → Vec3
  | [] => (0, 0, 0)
  | p :: ps =>
    let s := vsum ps
    (p.1 + s.1, p.2.1 + s.2.1, p.2.2 + s.2.2)

/-- Geometry-facade model of `mesh.center_of_mass()`: mean of the
vertices. -/
def Mesh.center_of_mass (m : Mesh) : QVec3 :=
  let n : ℚ := m.vertices.length
  if m.vertices.length = 0 then (0, 0, 0)
  else (((vsum m.vertices).1 : ℚ) / n, ((vsum m.vertices).2.1 : ℚ) / n,
    ((vsum m.vertices).2.2 : ℚ) / n)

/-- Geometry-facade model of `mesh.mirror(axis, origin)`: reflect every
vertex through the plane through `origin` (the zero point when `None`)
normal to the given literal axis. -/
def Mesh.mirror (m : Mesh) (axis : String) (origin : Option Vec3) : Mesh :=
  let o := origin.getD (0, 0, 0)
  let f : Vec3 → Vec3 := fun p =>
    if axis = "x" then (2 * o.1 - p.1, p.2.1, p.2.2)
    else if axis = "y" then (p.1, 2 * o.2.1 - p.2.1, p.2.2)
    else if axis = "z" then (p.1, p.2.1, 2 * o.2.2 - p.2.2)
    else p
  { m with vertices := m.vertices.map f }

/-- Geometry-facade model of `mesh.silhouette()`: outline extraction; the
outline has the same vertex set in this model and a fresh `poly` tag. -/
def Mesh.silhouetteOf (m : Mesh) : Mesh :=
  { m with shape := ShapeTag.poly }

/-- Model of the vedo `Text3D(label, pos, s=size, c=color, depth=0.1)`
constructor. -/
def Text3D (label : String) (pos : Vec3) (s : ℚ) (c : Color) (depth : ℚ) : Mesh :=
  { vertices := [pos], color := c, opacity := 1, linewidth := 1, attrs := [],
    shape := ShapeTag.text3d label s depth [] }

/-- Model of `obj.rotate_x(angle)` / `rotate_y(angle)`: record the
rotation on a text object. -/
def Mesh.rotateAbout (m : Mesh) (axis : String) (angle : ℚ) : Mesh :=
  match m.shape with
  | ShapeTag.text3d lbl s d rots =>
      { m with shape := ShapeTag.text3d lbl s d (rots ++ [(axis, angle)]) }
  | _ => m

/-- Model of the vedo `Sphere(pt, r=radius, c=color, res=8)` constructor,
already carrying the `ancor` tag and the `compute_normals()` request that
the source applies to the same object before returning. -/
def SphereMk (pt : Vec3) (r : ℚ) (c : Color) (res : ℕ) : Mesh :=
  { vertices := [pt], color := c, opacity := 1, linewidth := 1, attrs := [],
    shape := ShapeTag.sphere r res pt true }

/-- Python exception kinds raised by this module. -/
inductive PyErr : Type where
  | attributeError (msg : String)
  | indexError
  | valueError (msg : String)
deriving DecidableEq, Repr

/-- Modelled from the spec: the external Anatomical Space Resolver
(`brainglobe_space.AnatomicalSpace` / `atlas.space`), exposing
`axisIndexOf(symbolicName) → {0,1,2}` (`get_axis_idx` in the source). -/
structure AnatomicalSpaceModel : Type where
  get_axis_idx : String → ℕ

/-- Modelled from the spec: the fixed default anatomical convention
`AnatomicalSpace("asr")` (anterior-superior-right ordering) used by
`Actor.mirror` when no atlas is supplied; resolution maps the three
symbolic names to indices 0, 1, 2 in order. -/
def asrSpace : AnatomicalSpaceModel :=
  { get_axis_idx := fun s =>
      if s = "sagittal" then 0 else if s = "vertical" then 1
      else if s = "frontal" then 2 else 3 }

/-- Interface model of the external BrainGlobe atlas: hemisphere lookup
(`none` models the `IndexError` raised for a point outside the atlas's
known coordinate bounds), point mirroring across the hemisphere
boundary, and the atlas's anatomical space. -/
structure Atlas : Type where
  hemisphere_from_coords : Vec3 → Option String
  mirror_point_across_hemispheres : Vec3 → Vec3
  space : AnatomicalSpaceModel

/-- The recognized label-configuration keys of `make_actor_label`
(`size, color, radius, xoffset, yoffset, zoffset`), with `Option` for
the nullable ones. -/
structure LabelKwargs : Type where
  size : ℚ
  color : Option Color
  radius : Option ℚ
  xoffset : ℤ
  yoffset : ℤ
  zoffset : ℤ
deriving DecidableEq, Repr

/-- The silhouette configuration read by `make_silhouette`
(`self._silhouette_kwargs["lw"]` and `["color"]`, both mandatory). -/
structure SilKwargs : Type where
  lw : ℚ
  color : Color
deriving DecidableEq, Repr

/-- The scalar state of an `Actor` instance: the owned mesh, the
optional secondary `_mesh` representation (set by the scene when the
actor is transformed; absent right after construction), identity and
classification metadata, the four derived-state flags, and the
optionally attached label / silhouette configuration slots
(`_label_str`, `_label_kwargs`, `_silhouette_kwargs`; `none` means the
instance attribute was never attached). -/
structure ActorData : Type where
  mesh : Mesh
  meshSecondary : Option Mesh
  name : String
  br_class : String
  is_text : Bool
  needsLabel : Bool
  needsSilhouette : Bool
  isTransformed : Bool
  isAdded : Bool
  labelStr : Option String
  labelKwargs : Option LabelKwargs
  silhouetteKwargs : Option SilKwargs

/-- An `Actor`: its scalar data plus the owned children (`labels`,
initially `[]`, and `silhouette`, initially `none`), which are
themselves full actors. -/
inductive Actor : Type where
  | mk (data : ActorData) (labels : List Actor) (silhouette : Option Actor)

/-- The scalar data of an actor. -/
def Actor.data : Actor → ActorData
  | .mk d _ _ => d

/-- The `labels` children of an actor. -/
def Actor.labels : Actor → List Actor
  | .mk _ l _ => l

/-- The `silhouette` child of an actor. -/
def Actor.silhouette : Actor → Option Actor
  | .mk _ _ s => s

/-- The owned mesh (`self.mesh`). -/
def Actor.mesh (a : Actor) : Mesh := a.data.mesh

/-- The secondary mesh slot (`self._mesh`), when present. -/
def Actor.meshSecondary (a : Actor) : Option Mesh := a.data.meshSecondary

/-- `Actor.__init__(mesh, name, br_class, is_text, color, alpha)`:
wraps the mesh, defaults `name` to `"Actor"` and `br_class` to
`"None"`, and — under Python truthiness (`if color:` / `if alpha:`) —
mutates the mesh's color and opacity in place. -/
def Actor.init (mesh : Mesh) (name : Option String) (br_class : Option String)
    (is_text : Bool) (color : Option Color) (alpha : Option ℚ) : Actor :=
  let mesh1 :=
    match color with
    | some c => if c.truthy then { mesh with color := c } else mesh
    | none => mesh
  let mesh2 :=
    match alpha with
    | some al => if al ≠ 0 then { mesh1 with opacity := al } else mesh1
    | none => mesh1
  Actor.mk
    { mesh := mesh2
      meshSecondary := none
      name := name.getD "Actor"
      br_class := br_class.getD "None"
      is_text := is_text
      needsLabel := false
      needsSilhouette := false
      isTransformed := false
      isAdded := false
      labelStr := none
      labelKwargs := none
      silhouetteKwargs := none }
    [] none

/-- The `make_actor` classmethod: `cls(mesh, name=name, br_class=br_class)`. -/
def Actor.make_actor (mesh : Mesh) (name : String) (br_class : String) : Actor :=
  Actor.init mesh (some name) (some br_class) false none none

/-- The `center` property: the mesh's center of mass, computed at call
time from the current mesh (no caching). -/
def Actor.center (a : Actor) : QVec3 := a.mesh.center_of_mass

/-- `Actor.__getattr__(attr)` for integer-valued delegatable mesh
attributes.  Python calls this only when `attr` is not defined on the
Actor instance itself.  Faithful to the source: `"center_of_mass"` is
always looked up on the primary `mesh`; every other name is looked up
on `self.__dict__["_mesh"]` — a missing `_mesh` raises `KeyError`,
which is caught and falls back to the primary mesh, while a `_mesh`
present but lacking the attribute raises `AttributeError`, which is
*not* caught and propagates. -/
def Actor.pyGetattr (a : Actor) (attr : String) : Except PyErr Int :=
  if attr = "center_of_mass" then
    match a.mesh.getAttrVal attr with
    | some v => Except.ok v
    | none => Except.error (PyErr.attributeError ("Actor does not have attribute " ++ attr))
  else
    match a.meshSecondary with
    | none =>
        match a.mesh.getAttrVal attr with
        | some v => Except.ok v
        | none => Except.error (PyErr.attributeError ("Actor does not have attribute " ++ attr))
    | some m2 =>
        match m2.getAttrVal attr with
        | some v => Except.ok v
        | none => Except.error (PyErr.attributeError ("Mesh object has no attribute " ++ attr))

/-- Field update helpers mirroring the in-place assignments of the
source (`self.mesh = ...`, `self._needs_label = False`, etc.). -/
def Actor.setMesh : Actor → Mesh → Actor
  | .mk d l s, m => .mk { d with mesh := m } l s

/-- `self._needs_label = b`. -/
def Actor.setNeedsLabel : Actor → Bool → Actor
  | .mk d l s, b => .mk { d with needsLabel := b } l s

/-- `self._needs_silhouette = b`. -/
def Actor.setNeedsSilhouette : Actor → Bool → Actor
  | .mk d l s, b => .mk { d with needsSilhouette := b } l s

/-- `self._is_transformed = b`. -/
def Actor.setIsTransformed : Actor → Bool → Actor
  | .mk d l s, b => .mk { d with isTransformed := b } l s

/-- `self.labels = lbls`. -/
def Actor.setLabels : Actor → List Actor → Actor
  | .mk d _ s, l => .mk d l s

/-- `self.silhouette = sil`. -/
def Actor.setSilhouette : Actor → Option Actor → Actor
  | .mk d l _, s => .mk d l s

/-- Accumulator of `np.argmin`: scan the remaining values, keeping the
index of the first minimum seen so far (`bv` at index `bi`, next index
`i`). -/
def argminGo : List ℤ → ℤ → ℕ → ℕ → ℕ
  | [], _, _, bi => bi
  | x :: xs, bv, i, bi =>
    if x < bv then argminGo xs x (i + 1) i else argminGo xs bv (i + 1) bi

/-- `np.argmin` over a list of rationals: index of the first occurrence
of the minimum; `none` on the empty list (NumPy raises `ValueError`). -/
def npArgmin : List ℤ → Option ℕ
  | [] => none
  | x :: xs => some (argminGo xs x 1 0)

/-- The second coordinate of every vertex (`points[:, 1]`). -/
def secondCoords (vs : List Vec3) : List ℤ := vs.map (fun p => p.2.1)

/-- The anchor-point computation of `make_actor_label` for one actor,
from the source: take the vertex at `np.argmin(points[:, 1])`, add
`[-yoffset, -zoffset, xoffset]` and the default bias `[0, -200, 100]`,
then negate the third coordinate.  `none` when the vertex array is
empty (the `np.argmin` call raises). -/
def labelPoint (m : Mesh) (xoffset yoffset zoffset : ℤ) : Option Vec3 :=
  match npArgmin (secondCoords m.vertices) with
  | none => none
  | some i =>
    match m.vertices.get? i with
    | none => none
    | some p =>
      let q : Vec3 :=
        (p.1 + (-yoffset) + 0, p.2.1 + (-zoffset) + (-200), p.2.2 + xoffset + 100)
      some (q.1, q.2.1, -q.2.2)

/-- The hemisphere correction with its `try/except IndexError: pass`:
if the lookup succeeds and says `"left"`, mirror the point across the
hemispheres; if it fails (out-of-bounds point), keep the uncorrected
point. -/
def hemiCorrect (atlas : Atlas) (p : Vec3) : Vec3 :=
  match atlas.hemisphere_from_coords p with
  | none => p
  | some h => if h = "left" then atlas.mirror_point_across_hemispheres p else p

/-- Squared Euclidean distance between two points. -/
def dist2 (p q : Vec3) : ℤ :=
  (p.1 - q.1) * (p.1 - q.1) + (p.2.1 - q.2.1) * (p.2.1 - q.2.1) + (p.2.2 - q.2.2) * (p.2.2 - q.2.2)

/-- Geometry-facade model of `mesh.closest_point(p)`: the first vertex
minimizing the distance to `p`; `none` on an empty mesh. -/
def Mesh.closest_point (m : Mesh) (p : Vec3) : Option Vec3 :=
  match npArgmin (m.vertices.map (fun v => dist2 v p)) with
  | none => none
  | some i => m.vertices.get? i

/-- The mesh that Python attribute delegation hands to
`actor.closest_point(...)`: `_mesh` when present, else `mesh` (vedo
meshes always define `closest_point`). -/
def Actor.delegateMesh (a : Actor) : Mesh :=
  match a.meshSecondary with
  | some m2 => m2
  | none => a.mesh

/-- One iteration of the `make_actor_label` loop, after the color
default has been resolved to `c`: build the text object (position
`point * [-1, -1, -1]`, then `rotate_x(180).rotate_y(180)`), and, when
`radius` is not `None`, the sphere marker at the z-negated closest
point. -/
def makeLabelPair (atlas : Atlas) (size : ℚ) (c : Color) (radius : Option ℚ)
    (xoffset yoffset zoffset : ℤ) (a : Actor) (label : String) :
    Option (List Mesh) := do
  let point0 ← labelPoint a.mesh xoffset yoffset zoffset
  let point := hemiCorrect atlas point0
  let txt := (Text3D label (negVec point) size c (1/10)).rotateAbout "x" 180
  let txt := txt.rotateAbout "y" 180
  match radius with
  | none => some [txt]
  | some r => do
    let cp ← a.delegateMesh.closest_point point
    let pt : Vec3 := (cp.1, cp.2.1, -cp.2.2)
    some [txt, SphereMk pt r c 8]

/-- The `make_actor_label` loop over the zipped (actor, label) pairs,
threading the Python local variable `color` through the iterations:
`if color is None: color = [0.2, 0.2, 0.2]` rebinds the local, so the
resolved color carries over to every later pair. -/
def makeActorLabelGo (atlas : Atlas) (size : ℚ) (radius : Option ℚ)
    (xoffset yoffset zoffset : ℤ) :
    Option Color → List (Actor × String) → Option (List Mesh)
  | _, [] => some []
  | color, (a, label) :: rest =>
    let c := match color with
      | none => grayColor
      | some c0 => c0
    do
      let objs ← makeLabelPair atlas size c radius xoffset yoffset zoffset a label
      let others ← makeActorLabelGo atlas size radius xoffset yoffset zoffset (some c) rest
      some (objs ++ others)

/-- `make_actor_label(atlas, actors, labels, size, color, radius,
xoffset, yoffset, zoffset)`: the label synthesizer.  `listify` of
`brainrender/_utils.py` (not part of the excerpt) turns its argument
into a list; here actors and labels are passed as lists already, on
which it is the identity, so the zip is taken directly.  `none` models
an exception escaping the call (empty vertex array). -/
def make_actor_label (atlas : Atlas) (actors : List Actor) (labels : List String)
    (size : ℚ) (color : Option Color) (radius : Option ℚ)
    (xoffset yoffset zoffset : ℤ) : Option (List Mesh) :=
  makeActorLabelGo atlas size radius xoffset yoffset zoffset color (actors.zip labels)

/-- `Actor.make_label(atlas)`, returning the produced children and the
post-state of `self`.  Faithful statement order: `self._label_str` and
`self._label_kwargs` are read (raising `AttributeError` through
`__getattr__` when never attached — vedo meshes define neither) before
`make_actor_label` runs; only on success are `_needs_label` and
`labels` assigned. -/
def Actor.make_label (atlas : Atlas) (a : Actor) :
    Except PyErr (List Actor) × Actor :=
  match a.data.labelStr with
  | none =>
      (Except.error (PyErr.attributeError "Actor does not have attribute _label_str"), a)
  | some lbl =>
    match a.data.labelKwargs with
    | none =>
        (Except.error (PyErr.attributeError "Actor does not have attribute _label_kwargs"), a)
    | some kw =>
      match make_actor_label atlas [a] [lbl] kw.size kw.color kw.radius
          kw.xoffset kw.yoffset kw.zoffset with
      | none => (Except.error (PyErr.valueError "argmin of an empty sequence"), a)
      | some objs =>
        let a1 := a.setNeedsLabel false
        let lbls := objs.map (fun o => Actor.make_actor o a.data.name "label")
        let a2 := a1.setLabels lbls
        (Except.ok lbls, a2)

/-- `Actor.make_silhouette()`, returning the new silhouette actor and
the post-state of `self`.  Reads `self._silhouette_kwargs["lw"]` and
`["color"]`, then `self._mesh.silhouette().lw(lw).c(color)` (both
reads raise `AttributeError` through `__getattr__` when the slot was
never attached), wraps the outline via `make_actor`, marks it
transformed, clears the needs-silhouette flag and stores the child. -/
def Actor.make_silhouette (a : Actor) : Except PyErr (Actor × Actor) :=
  match a.data.silhouetteKwargs with
  | none =>
      Except.error (PyErr.attributeError "Actor does not have attribute _silhouette_kwargs")
  | some kw =>
    match a.meshSecondary with
    | none =>
        Except.error (PyErr.attributeError "Actor does not have attribute _mesh")
    | some m2 =>
      let sil0 := { m2.silhouetteOf with linewidth := kw.lw, color := kw.color }
      let name := a.data.name ++ " silhouette"
      let sil1 := Actor.make_actor sil0 name "silhouette"
      let sil := sil1.setIsTransformed true
      let a1 := a.setNeedsSilhouette false
      let a2 := a1.setSilhouette (some sil)
      Except.ok (sil, a2)

/-- Map a resolved axis index to the literal axis name
(`"x" if axis_ind == 0 else "y" if axis_ind == 1 else "z"`). -/
def idxToAxis (i : ℕ) : String :=
  if i = 0 then "x" else if i = 1 then "y" else "z"

/-- The anatomical space `Actor.mirror` resolves synonyms against:
`atlas.space` when an atlas is supplied, else `AnatomicalSpace("asr")`. -/
def spaceOf (atlas : Option Atlas) : AnatomicalSpaceModel :=
  match atlas with
  | some at_ => at_.space
  | none => asrSpace

/-- `Actor.mirror(axis, origin, atlas)`: resolve an anatomical synonym
(`"sagittal"`, `"vertical"`, `"frontal"`) to a literal axis through the
anatomical space, then `self.mesh = self.mesh.mirror(axis, origin)`. -/
def Actor.mirror (a : Actor) (axis : String) (origin : Option Vec3)
    (atlas : Option Atlas) : Actor :=
  let axis1 :=
    if axis = "sagittal" ∨ axis = "vertical" ∨ axis = "frontal" then
      idxToAxis ((spaceOf atlas).get_axis_idx axis)
    else axis
  a.setMesh (a.mesh.mirror axis1 origin)

/-- The vertex with the minimum second coordinate, first occurrence on
ties, stated the way the spec words it ("find the mesh vertex with the
minimum value along the second coordinate axis"). -/
def firstMinBySnd : List Vec3 → Option Vec3
  | [] => none
  | v :: vs => some (vs.foldl (fun best p => if p.2.1 < best.2.1 then p else best) v)

/-- The anchor-point computation as the spec words it: minimal vertex
along the second axis, plus `(-yoffset, -zoffset, xoffset)`, plus the
fixed bias `(0, -200, 100)`, with the third coordinate then negated. -/
def specAnchorPoint (m : Mesh) (xoffset yoffset zoffset : ℤ) : Option Vec3 :=
  (firstMinBySnd m.vertices).map (fun v =>
    (v.1 + (-yoffset) + 0, v.2.1 + (-zoffset) + (-200), -(v.2.2 + xoffset + 100)))

/-! ## Test fixtures -/

/-- A one-vertex test mesh at the origin. -/
def meshW : Mesh :=
  { vertices := [((0 : ℤ), 0, 0)], color := Color.named "default", opacity := 1,
    linewidth := 1, attrs := [], shape := ShapeTag.poly }

/-- A test atlas whose hemisphere lookup always fails (every point is
outside its known coordinate bounds). -/
def atlasMiss : Atlas :=
  { hemisphere_from_coords := fun _ => none,
    mirror_point_across_hemispheres := fun p => p,
    space := asrSpace }

/-- A plain actor wrapping `meshW` (no color/alpha overrides). -/
def actorW : Actor := Actor.init meshW none none false none none

/-! ## Claims -/

/-- C1: with the default offsets, `make_actor_label` called with
`radius = 0` on one actor does NOT return a single text-only object as
the claim (and the function's own docstring, "Set to 0 or None to
hide") states: the code only tests `radius is not None`, so a sphere
marker of radius 0 is still produced and the call returns 2 objects. -/
theorem make_actor_label_radius_zero_emits_marker :
    make_actor_label atlasMiss [actorW] ["my actor"] 300 none (some 0) 0 (-500) 0 =
      some
        [{ vertices := [((-500 : ℤ), 200, 100)], color := grayColor, opacity := 1,
           linewidth := 1, attrs := [],
           shape := ShapeTag.text3d "my actor" 300 (1/10) [("x", 180), ("y", 180)] },
         { vertices := [((0 : ℤ), 0, 0)], color := grayColor, opacity := 1,
           linewidth := 1, attrs := [],
           shape := ShapeTag.sphere 0 8 (0, 0, 0) true }] := rfl

/-- C2: `mirror` resolves an anatomical synonym through the atlas's
anatomical space when an atlas is supplied and through the fixed
`"asr"` convention otherwise, mapping resolved index 0 to `"x"`, 1 to
`"y"`, 2 to `"z"` before mirroring the mesh; and when the default
convention maps `"sagittal"` to axis 0, `mirror("x")` and
`mirror("sagittal")` with no atlas produce identical output point
sets. -/
theorem mirror_anatomical_axis_resolution :
    (∀ (a : Actor) (o : Option Vec3) (atl : Option Atlas) (axis : String),
      (axis = "sagittal" ∨ axis = "vertical" ∨ axis = "frontal") →
      Actor.mirror a axis o atl =
        a.setMesh (a.mesh.mirror (idxToAxis ((spaceOf atl).get_axis_idx axis)) o)) ∧
    (asrSpace.get_axis_idx "sagittal" = 0 →
      ∀ (a : Actor) (o : Option Vec3),
        (Actor.mirror a "sagittal" o none).mesh.vertices =
          (Actor.mirror a "x" o none).mesh.vertices) := by
  constructor
  · intro a o atl axis h
    unfold Actor.mirror
    rcases h with h | h | h <;> subst h <;> rw [if_pos] <;> simp
  · intro h a o
    unfold Actor.mirror
    rw [if_pos (by simp), if_neg (by simp)]
    simp [spaceOf, h, idxToAxis]

/-- Witness for C2 at concrete inputs: the synonym `"vertical"` with an
atlas resolves through the atlas's space, and `mirror("sagittal")` with
no atlas matches `mirror("x")` on the test actor. -/
theorem mirror_anatomical_axis_resolution_witness :
    Actor.mirror actorW "vertical" none (some atlasMiss) =
      actorW.setMesh (actorW.mesh.mirror
        (idxToAxis ((spaceOf (some atlasMiss)).get_axis_idx "vertical")) none) ∧
    (Actor.mirror actorW "sagittal" none none).mesh.vertices =
      (Actor.mirror actorW "x" none none).mesh.vertices :=
  ⟨mirror_anatomical_axis_resolution.1 actorW none (some atlasMiss) "vertical"
      (Or.inr (Or.inl rfl)),
    mirror_anatomical_axis_resolution.2 rfl actorW none⟩

/-- Rotating a label object does not change its color. -/
theorem rotateAbout_color (m : Mesh) (ax : String) (an : ℚ) :
    (m.rotateAbout ax an).color = m.color := by
  unfold Mesh.rotateAbout
  split <;> rfl

/-- Every object a single loop iteration synthesizes carries the color
the iteration was given. -/
theorem makeLabelPair_colors (atlas : Atlas) (size : ℚ) (c : Color)
    (radius : Option ℚ) (xo yo zo : ℤ) (a : Actor) (label : String)
    (objs : List Mesh)
    (h : makeLabelPair atlas size c radius xo yo zo a label = some objs) :
    objs.map Mesh.color = List.replicate objs.length c := by
  unfold makeLabelPair at h
  cases hlp : labelPoint a.mesh xo yo zo with
  | none => rw [hlp] at h; exact absurd h (by simp)
  | some point0 =>
    rw [hlp] at h
    simp only [Option.bind_eq_bind, Option.some_bind] at h
    cases radius with
    | none =>
      cases h
      simp [rotateAbout_color, Text3D]
    | some r =>
      cases hcp : (a.delegateMesh.closest_point (hemiCorrect atlas point0)) with
      | none => rw [hcp] at h; exact absurd h (by simp)
      | some cp =>
        rw [hcp] at h
        cases h
        simp [rotateAbout_color, Text3D, SphereMk]

/-- Once the loop's `color` local holds `c`, every object synthesized by
the remaining iterations carries `c`. -/
theorem makeActorLabelGo_colors (atlas : Atlas) (size : ℚ) (radius : Option ℚ)
    (xo yo zo : ℤ) :
    ∀ (pairs : List (Actor × String)) (c : Color) (res : List Mesh),
      makeActorLabelGo atlas size radius xo yo zo (some c) pairs = some res →
      res.map Mesh.color = List.replicate res.length c := by
  intro pairs
  induction pairs with
  | nil =>
    intro c res h
    unfold makeActorLabelGo at h
    cases h
    rfl
  | cons p rest ih =>
    intro c res h
    obtain ⟨a, label⟩ := p
    unfold makeActorLabelGo at h
    dsimp only at h
    cases hobjs : makeLabelPair atlas size c radius xo yo zo a label with
    | none => rw [hobjs] at h; exact absurd h (by simp)
    | some objs =>
      rw [hobjs] at h
      cases hrest : makeActorLabelGo atlas size radius xo yo zo (some c) rest with
      | none => rw [hrest] at h; exact absurd h (by simp)
      | some others =>
        rw [hrest] at h
        simp only [Option.bind_eq_bind, Option.some_bind, Option.some.injEq] at h
        subst h
        rw [List.map_append, List.length_append, List.replicate_add,
          makeLabelPair_colors atlas size c radius xo yo zo a label objs hobjs,
          ih c others hrest]

/-- C3: in a single `make_actor_label` call over a batch of
(actor, label) pairs with `color` left unset (`None`), the neutral-gray
default bound on the first iteration is sticky: the local `color`
variable is rebound to the gray default, so every pair in the call —
the first and all subsequent ones — receives that same gray default,
and every synthesized object carries it. -/
theorem make_actor_label_default_color_sticky (atlas : Atlas)
    (actors : List Actor) (labels : List String) (size : ℚ)
    (radius : Option ℚ) (xo yo zo : ℤ) (res : List Mesh)
    (h : make_actor_label atlas actors labels size none radius xo yo zo = some res) :
    res.map Mesh.color = List.replicate res.length grayColor := by
  unfold make_actor_label at h
  cases hp : actors.zip labels with
  | nil =>
    rw [hp] at h
    unfold makeActorLabelGo at h
    cases h
    rfl
  | cons p rest =>
    rw [hp] at h
    obtain ⟨a, label⟩ := p
    unfold makeActorLabelGo at h
    dsimp only at h
    cases hobjs : makeLabelPair atlas size grayColor radius xo yo zo a label with
    | none => rw [hobjs] at h; exact absurd h (by simp)
    | some objs =>
      rw [hobjs] at h
      cases hrest : makeActorLabelGo atlas size radius xo yo zo (some grayColor) rest with
      | none => rw [hrest] at h; exact absurd h (by simp)
      | some others =>
        rw [hrest] at h
        simp only [Option.bind_eq_bind, Option.some_bind, Option.some.injEq] at h
        subst h
        rw [List.map_append, List.length_append, List.replicate_add,
          makeLabelPair_colors atlas size grayColor radius xo yo zo a label objs hobjs,
          makeActorLabelGo_colors atlas size radius xo yo zo rest grayColor others hrest]

/-- The output of a concrete two-actor batch with `color` unset. -/
def stickyObjs : List Mesh :=
  (make_actor_label atlasMiss [actorW, actorW] ["a", "b"] 300 none (some 100)
    0 (-500) 0).getD []

/-- Witness for C3: on a concrete two-actor batch with `color = None`,
all four synthesized objects (two texts, two markers) carry the gray
default. -/
theorem make_actor_label_default_color_sticky_witness :
    stickyObjs.map Mesh.color = List.replicate stickyObjs.length grayColor :=
  make_actor_label_default_color_sticky atlasMiss [actorW, actorW] ["a", "b"]
    300 (some 100) 0 (-500) 0 stickyObjs rfl

/-- The argmin accumulator returns an index below the total length. -/
theorem argminGo_lt (xs : List ℤ) :
    ∀ (bv : ℤ) (i bi : ℕ), bi < i → argminGo xs bv i bi < i + xs.length := by
  induction xs with
  | nil =>
    intro bv i bi hbi
    simpa [argminGo] using hbi
  | cons x xs ih =>
    intro bv i bi hbi
    unfold argminGo
    by_cases hx : x < bv
    · rw [if_pos hx]
      have := ih x (i + 1) i (Nat.lt_succ_self i)
      simp only [List.length_cons]
      omega
    · rw [if_neg hx]
      have := ih bv (i + 1) bi (Nat.lt_succ_of_lt hbi)
      simp only [List.length_cons]
      omega

/-- `np.argmin` of a non-empty list lands inside the list. -/
theorem npArgmin_lt (l : List ℤ) (j : ℕ) (h : npArgmin l = some j) : j < l.length := by
  cases l with
  | nil => exact absurd h (by simp [npArgmin])
  | cons x xs =>
    unfold npArgmin at h
    cases h
    have := argminGo_lt xs x 1 0 (Nat.lt_succ_self 0)
    simp only [List.length_cons]
    omega

/-- `closest_point` succeeds on any mesh with at least one vertex. -/
theorem closest_point_of_ne_nil (m : Mesh) (q : Vec3) (h : m.vertices ≠ []) :
    ∃ cp, m.closest_point q = some cp := by
  unfold Mesh.closest_point
  cases hm : npArgmin (m.vertices.map (fun v => dist2 v q)) with
  | none =>
    cases hv : m.vertices with
    | nil => exact absurd hv h
    | cons v vs => rw [hv] at hm; exact absurd hm (by simp [npArgmin])
  | some j =>
    have hj : j < m.vertices.length := by
      have := npArgmin_lt _ j hm
      simpa using this
    exact ⟨m.vertices.get ⟨j, hj⟩, List.get?_eq_get hj⟩

/-- A failed hemisphere lookup leaves the anchor point uncorrected. -/
theorem hemiCorrect_of_miss (atlas : Atlas) (p : Vec3)
    (h : atlas.hemisphere_from_coords p = none) : hemiCorrect atlas p = p := by
  unfold hemiCorrect
  rw [h]

/-- A failed hemisphere lookup inside one loop iteration: the
iteration succeeds and leads with the text object at the uncorrected
anchor point. -/
theorem makeLabelPair_miss (atlas : Atlas) (a : Actor) (label : String)
    (size : ℚ) (c : Color) (radius : Option ℚ) (xo yo zo : ℤ) (p : Vec3)
    (hp : labelPoint a.mesh xo yo zo = some p)
    (hmiss : atlas.hemisphere_from_coords p = none)
    (hne : a.delegateMesh.vertices ≠ []) :
    ∃ objs, makeLabelPair atlas size c radius xo yo zo a label = some objs ∧
      objs.head? = some
        (((Text3D label (negVec p) size c (1/10)).rotateAbout "x" 180).rotateAbout
          "y" 180) := by
  unfold makeLabelPair
  rw [hp]
  simp only [Option.bind_eq_bind, Option.some_bind]
  rw [hemiCorrect_of_miss atlas p hmiss]
  cases radius with
  | none => exact ⟨_, rfl, rfl⟩
  | some r =>
    obtain ⟨cp, hcp⟩ := closest_point_of_ne_nil a.delegateMesh p hne
    rw [hcp]
    simp only [Option.some_bind]
    exact ⟨_, rfl, rfl⟩

/-- C4: a hemisphere-lookup failure (the atlas raising `IndexError` for
a point outside its known bounds) is swallowed by the label
synthesizer: the call does not raise, proceeds with the uncorrected
anchor point, and still returns a well-formed label list whose first
element is the text actor placed at the uncorrected point. -/
theorem make_actor_label_hemisphere_miss_recovers (atlas : Atlas) (a : Actor)
    (label : String) (size : ℚ) (color : Option Color) (radius : Option ℚ)
    (xo yo zo : ℤ) (p : Vec3)
    (hp : labelPoint a.mesh xo yo zo = some p)
    (hmiss : atlas.hemisphere_from_coords p = none)
    (hne : a.delegateMesh.vertices ≠ []) :
    ∃ objs, make_actor_label atlas [a] [label] size color radius xo yo zo = some objs ∧
      objs.head? = some
        (((Text3D label (negVec p) size (color.getD grayColor) (1/10)).rotateAbout
          "x" 180).rotateAbout "y" 180) := by
  cases color with
  | none =>
    obtain ⟨objs, hobjs, hhead⟩ :=
      makeLabelPair_miss atlas a label size grayColor radius xo yo zo p hp hmiss hne
    refine ⟨objs, ?_, hhead⟩
    show makeActorLabelGo atlas size radius xo yo zo none [(a, label)] = some objs
    unfold makeActorLabelGo
    dsimp only
    rw [hobjs]
    unfold makeActorLabelGo
    simp
  | some c0 =>
    obtain ⟨objs, hobjs, hhead⟩ :=
      makeLabelPair_miss atlas a label size c0 radius xo yo zo p hp hmiss hne
    refine ⟨objs, ?_, hhead⟩
    show makeActorLabelGo atlas size radius xo yo zo (some c0) [(a, label)] = some objs
    unfold makeActorLabelGo
    dsimp only
    rw [hobjs]
    unfold makeActorLabelGo
    simp

/-- Witness for C4 on `atlasMiss`, whose hemisphere lookup fails on
every point: the call still returns the (uncorrected) text actor. -/
theorem make_actor_label_hemisphere_miss_recovers_witness :
    ∃ objs,
      make_actor_label atlasMiss [actorW] ["w"] 300 none (some 100) 0 (-500) 0 =
        some objs ∧
      objs.head? = some
        (((Text3D "w" (negVec (500, -200, -100)) 300 ((none : Option Color).getD grayColor)
          (1/10)).rotateAbout "x" 180).rotateAbout "y" 180) :=
  make_actor_label_hemisphere_miss_recovers atlasMiss actorW "w" 300 none (some 100)
    0 (-500) 0 (500, -200, -100) rfl rfl (by simp [Actor.delegateMesh, actorW,
      Actor.meshSecondary, Actor.mesh, Actor.init, Actor.data, meshW])

/-- A test mesh sitting away from the origin. -/
def meshOff : Mesh :=
  { vertices := [((2 : ℤ), 4, 6)], color := Color.named "default", opacity := 1,
    linewidth := 1, attrs := [], shape := ShapeTag.poly }

/-- A plain actor wrapping `meshOff`. -/
def actorOff : Actor := Actor.init meshOff none none false none none

/-- C5: `center` always equals the mesh's center of mass computed at
call time: it equals the current mesh's center of mass on every actor,
it still does after a `mirror` mutation, and on a concrete off-origin
actor the value read after `mirror` genuinely differs from the value
read before (nothing stale is cached). -/
theorem actor_center_tracks_mesh :
    (∀ a : Actor, a.center = a.mesh.center_of_mass) ∧
    (∀ (a : Actor) (axis : String) (o : Option Vec3) (atl : Option Atlas),
      (a.mirror axis o atl).center = (a.mirror axis o atl).mesh.center_of_mass) ∧
    (actorOff.mirror "x" none none).center ≠ actorOff.center := by
  refine ⟨fun a => rfl, fun a axis o atl => rfl, ?_⟩
  intro h
  have h1 : ((-2 : ℤ) : ℚ) / 1 = ((2 : ℤ) : ℚ) / 1 := congrArg Prod.fst h
  norm_num at h1

/-- A primary mesh carrying a delegatable `npoints` attribute. -/
def meshPrim : Mesh :=
  { vertices := [((0 : ℤ), 0, 0)], color := Color.named "default", opacity := 1,
    linewidth := 1, attrs := [("npoints", 42)], shape := ShapeTag.poly }

/-- A secondary `_mesh` lacking `npoints`. -/
def meshSec : Mesh := { meshPrim with attrs := [] }

/-- An actor whose `_mesh` slot is populated (as the scene does after
transforming an actor) with a mesh lacking `npoints`, while the primary
mesh has it. -/
def actorTwoMesh : Actor :=
  Actor.mk
    { mesh := meshPrim, meshSecondary := some meshSec, name := "A",
      br_class := "None", is_text := false, needsLabel := false,
      needsSilhouette := false, isTransformed := false, isAdded := false,
      labelStr := none, labelKwargs := none, silhouetteKwargs := none } [] none

/-- C6 counterexample: the claim says an attribute present on the owned
mesh is returned with the mesh's value (preferring `_mesh` when one
exists) — but on an actor whose `_mesh` exists and lacks `npoints`,
delegation raises `AttributeError` (the source catches only `KeyError`,
not the `AttributeError` from `getattr(self.__dict__["_mesh"], attr)`)
even though the owned mesh defines `npoints = 42`. -/
theorem getattr_secondary_shadows_mesh_cex :
    (Actor.mesh actorTwoMesh).getAttrVal "npoints" = some 42 ∧
    actorTwoMesh.pyGetattr "npoints" =
      Except.error (PyErr.attributeError "Mesh object has no attribute npoints") ∧
    actorTwoMesh.pyGetattr "npoints" ≠ Except.ok 42 := by
  refine ⟨rfl, rfl, ?_⟩
  intro hcontra
  have h2 : actorTwoMesh.pyGetattr "npoints" =
      Except.error (PyErr.attributeError "Mesh object has no attribute npoints") := rfl
  rw [h2] at hcontra
  exact Except.noConfusion hcontra

/-- C6 (amended): delegation of an attribute absent on the Actor itself
resolves on the primary mesh when no `_mesh` exists; when `_mesh`
exists, every attribute except `center_of_mass` is resolved on `_mesh`
only — present there it returns `_mesh`'s value, absent there it raises
`AttributeError` even if the primary mesh defines it; `center_of_mass`
is always taken from the primary mesh; an attribute absent from the
Actor and from the consulted meshes raises an AttributeError-kind
error. -/
theorem getattr_delegation_amended :
    (∀ (a : Actor) (attr : String) (v : Int),
      a.meshSecondary = none → a.mesh.getAttrVal attr = some v →
      a.pyGetattr attr = Except.ok v) ∧
    (∀ (a : Actor) (m2 : Mesh) (attr : String) (v : Int),
      a.meshSecondary = some m2 → attr ≠ "center_of_mass" →
      m2.getAttrVal attr = some v → a.pyGetattr attr = Except.ok v) ∧
    (∀ (a : Actor) (m2 : Mesh) (attr : String),
      a.meshSecondary = some m2 → attr ≠ "center_of_mass" →
      m2.getAttrVal attr = none →
      a.pyGetattr attr =
        Except.error (PyErr.attributeError ("Mesh object has no attribute " ++ attr))) ∧
    (∀ (a : Actor) (m2 : Mesh) (v : Int),
      a.meshSecondary = some m2 → a.mesh.getAttrVal "center_of_mass" = some v →
      a.pyGetattr "center_of_mass" = Except.ok v) ∧
    (∀ (a : Actor) (attr : String),
      a.mesh.getAttrVal attr = none →
      (∀ m2, a.meshSecondary = some m2 → m2.getAttrVal attr = none) →
      ∃ msg, a.pyGetattr attr = Except.error (PyErr.attributeError msg)) := by
  refine ⟨?_, ?_, ?_, ?_, ?_⟩
  · intro a attr v hsec hm
    unfold Actor.pyGetattr
    by_cases hc : attr = "center_of_mass"
    · rw [if_pos hc, hm]
    · rw [if_neg hc, hsec, hm]
  · intro a m2 attr v hsec hc hm
    unfold Actor.pyGetattr
    rw [if_neg hc, hsec]
    dsimp only
    rw [hm]
  · intro a m2 attr hsec hc hm
    unfold Actor.pyGetattr
    rw [if_neg hc, hsec]
    dsimp only
    rw [hm]
  · intro a m2 v hsec hm
    unfold Actor.pyGetattr
    rw [if_pos rfl, hm]
  · intro a attr hm hm2
    unfold Actor.pyGetattr
    by_cases hc : attr = "center_of_mass"
    · rw [if_pos hc, hm]
      exact ⟨_, rfl⟩
    · rw [if_neg hc]
      cases hsec : a.meshSecondary with
      | none =>
        dsimp only
        rw [hm]
        exact ⟨_, rfl⟩
      | some m2 =>
        dsimp only
        rw [hm2 m2 hsec]
        exact ⟨_, rfl⟩

/-- A plain actor wrapping `meshPrim` (no `_mesh` slot). -/
def actorPrimOnly : Actor := Actor.init meshPrim none none false none none

/-- Witness for the amended C6: with no `_mesh`, `npoints` delegates to
the primary mesh; with a `_mesh` lacking it, delegation raises. -/
theorem getattr_delegation_amended_witness :
    actorPrimOnly.pyGetattr "npoints" = Except.ok 42 ∧
    actorTwoMesh.pyGetattr "npoints" =
      Except.error (PyErr.attributeError "Mesh object has no attribute npoints") :=
  ⟨getattr_delegation_amended.1 actorPrimOnly "npoints" 42 rfl rfl,
    getattr_delegation_amended.2.2.1 actorTwoMesh meshSec "npoints" rfl
      (by decide) rfl⟩

/-- C7: `make_silhouette` on an actor (with its silhouette config and
secondary mesh attached, as the scene guarantees) returns a single new
actor whose `_is_transformed` flag is true, whose class tag is exactly
`"silhouette"` and whose name is the parent's name followed by
`" silhouette"`; it also clears the parent's needs-silhouette flag and
stores the result as the parent's `silhouette` attribute. -/
theorem make_silhouette_spec (a : Actor) (kw : SilKwargs) (m2 : Mesh)
    (hkw : a.data.silhouetteKwargs = some kw)
    (hm : a.meshSecondary = some m2) :
    ∃ sil a2, a.make_silhouette = Except.ok (sil, a2) ∧
      sil.data.isTransformed = true ∧
      sil.data.br_class = "silhouette" ∧
      sil.data.name = a.data.name ++ " silhouette" ∧
      a2.data.needsSilhouette = false ∧
      a2.silhouette = some sil := by
  cases a with
  | mk d ls ss =>
    dsimp only [Actor.data] at hkw
    dsimp only [Actor.meshSecondary, Actor.data] at hm
    unfold Actor.make_silhouette
    dsimp only [Actor.data, Actor.meshSecondary]
    rw [hkw]
    dsimp only
    rw [hm]
    dsimp only
    exact ⟨_, _, rfl, rfl, rfl, rfl, rfl, rfl⟩

/-- An actor with silhouette config and a secondary mesh attached. -/
def actorSil : Actor :=
  Actor.mk
    { mesh := meshW, meshSecondary := some meshW, name := "root",
      br_class := "None", is_text := false, needsLabel := false,
      needsSilhouette := true, isTransformed := false, isAdded := false,
      labelStr := none, labelKwargs := none,
      silhouetteKwargs := some { lw := 2, color := Color.named "k" } } [] none

/-- The concrete silhouette result on `actorSil`. -/
def silPairW : Actor × Actor :=
  (actorSil.make_silhouette).toOption.getD (actorW, actorW)

/-- Witness for C7 on `actorSil`. -/
theorem make_silhouette_spec_witness :
    (silPairW.1).data.isTransformed = true ∧
    (silPairW.1).data.br_class = "silhouette" ∧
    (silPairW.1).data.name = "root silhouette" ∧
    (silPairW.2).data.needsSilhouette = false ∧
    (silPairW.2).silhouette = some silPairW.1 := by
  obtain ⟨sil, a2, h1, h2, h3, h4, h5, h6⟩ :=
    make_silhouette_spec actorSil { lw := 2, color := Color.named "k" } meshW rfl rfl
  have hp : silPairW = (sil, a2) := by
    unfold silPairW
    rw [h1]
    rfl
  rw [hp]
  exact ⟨h2, h3, by rw [h4]; rfl, h5, h6⟩

/-- The argmin accumulator, run over the second coordinates of the
remaining vertices `xs` of a list `pre ++ xs`, returns an index that
points at the running minimum computed by the direct fold. -/
theorem argminGo_get (xs : List Vec3) :
    ∀ (pre : List Vec3) (b : Vec3) (bi : ℕ),
      (pre ++ xs).get? bi = some b →
      (pre ++ xs).get? (argminGo (secondCoords xs) (b.2.1) pre.length bi) =
        some (xs.foldl (fun best p => if p.2.1 < best.2.1 then p else best) b) := by
  induction xs with
  | nil =>
    intro pre b bi hbi
    simpa [argminGo, secondCoords] using hbi
  | cons x xs ih =>
    intro pre b bi hbi
    have hsc : secondCoords (x :: xs) = x.2.1 :: secondCoords xs := rfl
    rw [hsc]
    unfold argminGo
    have hassoc : (pre ++ [x]) ++ xs = pre ++ x :: xs := by simp
    by_cases hx : x.2.1 < b.2.1
    · rw [if_pos hx]
      have hx0 : (pre ++ x :: xs).get? pre.length = some x := by
        rw [List.get?_append_right (le_refl pre.length)]
        simp
      have hrec := ih (pre ++ [x]) x pre.length (by rw [hassoc]; exact hx0)
      rw [hassoc] at hrec
      rw [List.foldl_cons, if_pos hx]
      simpa [List.length_append] using hrec
    · rw [if_neg hx]
      have hrec := ih (pre ++ [x]) b bi (by rw [hassoc]; exact hbi)
      rw [hassoc] at hrec
      rw [List.foldl_cons, if_neg hx]
      simpa [List.length_append] using hrec

/-- C8: the anchor point computed by the source (vertex at
`np.argmin(points[:, 1])`, plus `(-yoffset, -zoffset, xoffset)`, plus
the fixed default bias `(0, -200, 100)`, third coordinate negated)
coincides, on every mesh, with the formula as the spec words it. -/
theorem labelPoint_eq_specAnchorPoint (m : Mesh) (xo yo zo : ℤ) :
    labelPoint m xo yo zo = specAnchorPoint m xo yo zo := by
  unfold labelPoint specAnchorPoint
  cases hv : m.vertices with
  | nil => rfl
  | cons v vs =>
    have hget := argminGo_get vs [v] v 0 rfl
    simp only [List.singleton_append, List.length_singleton] at hget
    have h1 : npArgmin (secondCoords (v :: vs)) =
        some (argminGo (secondCoords vs) (v.2.1) 1 0) := rfl
    rw [h1]
    dsimp only
    rw [hget]
    rfl

/-- C9 counterexample: constructing an actor with `color="red"` and
`alpha=0` given does not set the mesh's opacity to the given value 0 —
the source tests `if alpha:`, and Python's `0` is falsy, so the
opacity stays at the engine default 1. -/
theorem actor_init_alpha_zero_cex :
    (Actor.init meshW none none false (some (Color.named "red")) (some 0)).mesh.opacity
      = 1 ∧ (1 : ℚ) ≠ 0 := by
  constructor
  · rfl
  · norm_num

/-- C9 (amended): construction with a truthy color and a non-zero alpha
mutates the mesh's rendering attributes in place (color and opacity set
to the given values); construction with `color=None` applies no color
override (a falsy given value — empty-string color or zero alpha — also
applies none). -/
theorem actor_init_color_alpha_amended :
    (∀ (m : Mesh) (n bc : Option String) (it : Bool) (c : Color) (al : ℚ),
      c.truthy = true → al ≠ 0 →
      (Actor.init m n bc it (some c) (some al)).mesh.color = c ∧
      (Actor.init m n bc it (some c) (some al)).mesh.opacity = al) ∧
    (∀ (m : Mesh) (n bc : Option String) (it : Bool) (al : Option ℚ),
      (Actor.init m n bc it none al).mesh.color = m.color) := by
  constructor
  · intro m n bc it c al hc hal
    unfold Actor.init
    dsimp only
    rw [if_pos hc, if_pos hal]
    exact ⟨rfl, rfl⟩
  · intro m n bc it al
    unfold Actor.init
    dsimp only
    cases al with
    | none => rfl
    | some a0 =>
      dsimp only
      split <;> rfl

/-- Witness for the amended C9: color `"red"` and alpha `1` are applied
to the mesh; `color=None` leaves the mesh color untouched. -/
theorem actor_init_color_alpha_amended_witness :
    (Actor.init meshW none none false (some (Color.named "red")) (some 1)).mesh.color
      = Color.named "red" ∧
    (Actor.init meshW none none false (some (Color.named "red")) (some 1)).mesh.opacity
      = 1 ∧
    (Actor.init meshW none none false none (some 1)).mesh.color = meshW.color :=
  ⟨(actor_init_color_alpha_amended.1 meshW none none false (Color.named "red") 1
      rfl (by decide)).1,
    (actor_init_color_alpha_amended.1 meshW none none false (Color.named "red") 1
      rfl (by decide)).2,
    actor_init_color_alpha_amended.2 meshW none none false (some 1)⟩

/-- C10: calling `make_label` on an actor with no `_label_str` attached
raises `AttributeError` (through `__getattr__`: vedo meshes define no
`_label_str`) before any state change: the post-state is exactly the
pre-state, so the needs-label flag and the labels sequence are as they
were before the call. -/
theorem make_label_missing_label_str (atlas : Atlas) (a : Actor)
    (h : a.data.labelStr = none) :
    Actor.make_label atlas a =
      (Except.error (PyErr.attributeError "Actor does not have attribute _label_str"),
        a) ∧
    (Actor.make_label atlas a).2.data.needsLabel = a.data.needsLabel ∧
    (Actor.make_label atlas a).2.labels = a.labels := by
  have h1 : Actor.make_label atlas a =
      (Except.error (PyErr.attributeError "Actor does not have attribute _label_str"),
        a) := by
    unfold Actor.make_label
    rw [h]
  exact ⟨h1, by rw [h1], by rw [h1]⟩

/-- Witness for C10 on a freshly constructed actor (no label slots). -/
theorem make_label_missing_label_str_witness :
    Actor.make_label atlasMiss actorW =
      (Except.error (PyErr.attributeError "Actor does not have attribute _label_str"),
        actorW) ∧
    (Actor.make_label atlasMiss actorW).2.data.needsLabel = actorW.data.needsLabel ∧
    (Actor.make_label atlasMiss actorW).2.labels = actorW.labels :=
  make_label_missing_label_str atlasMiss actorW rfl

end Brainrender
